import Mathlib

/-!
# Shallow embedding of `src/dashboard.py` (ai-trading-dashboard)

The core pipeline of the dashboard is embedded here:

* pandas float cells are modelled by `PVal`: an exact rational, a signed
  infinity, or NaN, with IEEE-style arithmetic (division by zero yields
  ±∞ or NaN, never an exception; comparisons against NaN are `false`);
* a DataFrame row is a `Row` (input columns) or `DRow` (after `load_data`
  adds the derived columns `pnl_rs`, `pnl_pct`); presentation-only columns
  (`rsi`, `ema_signal`, `volume_signal`, `support`, `resistance`, `reason`,
  `holding_days`) play no role in any modelled computation and are omitted;
* the external quote provider (`yfinance`) is an oracle
  `world : String → FetchOutcome`; `fetch_live_prices` mirrors the
  per-symbol try/except loop of lines 27–42;
* `load_data` mirrors lines 48–67: CSV parse outcome as
  `Except String (List Row)` (a missing file or a missing column both land
  in the `error` case, as the enclosing `try` catches either), live-price
  merge via `fillna`, and recomputation of `pnl_rs` / `pnl_pct`;
* the module-level aggregations (lines 91–105, 200–225) are `open_trades`,
  `total_pnl`, `total_pnl_pct`, `avg_conf`, `near_sl`, `at_target`,
  `total_risk`, with pandas semantics (`sum`/`mean` skip NaN, boolean
  filters treat NaN comparisons as `false`).
-/

/-- A pandas float cell: an exact rational, a signed infinity
(`inf true` = +∞, `inf false` = −∞), or NaN (pandas' null). -/
inductive PVal where
  | num (q : ℚ)
  | inf (pos : Bool)
  | nan
deriving DecidableEq, Repr

namespace PVal

/-- IEEE addition on cells. -/
def add : PVal → PVal → PVal
  | num a, num b => num (a + b)
  | num _, inf b => inf b
  | inf a, num _ => inf a
  | inf a, inf b => if a = b then inf a else nan
  | _, _ => nan

/-- IEEE subtraction on cells. -/
def sub : PVal → PVal → PVal
  | num a, num b => num (a - b)
  | num _, inf b => inf (!b)
  | inf a, num _ => inf a
  | inf a, inf b => if a = b then nan else inf a
  | _, _ => nan

/-- IEEE multiplication on cells (0 × ∞ = NaN). -/
def mul : PVal → PVal → PVal
  | num a, num b => num (a * b)
  | num a, inf b => if a = 0 then nan else if 0 < a then inf b else inf (!b)
  | inf a, num b => if b = 0 then nan else if 0 < b then inf a else inf (!a)
  | inf a, inf b => inf (a = b)
  | _, _ => nan

/-- IEEE division on cells: x/0 is ±∞ for x ≠ 0 and NaN for 0/0 (numpy
emits a warning but raises nothing); finite/∞ = 0; ∞/∞ = NaN. -/
def div : PVal → PVal → PVal
  | num a, num b =>
      if b = 0 then (if a = 0 then nan else inf (decide (0 < a))) else num (a / b)
  | num _, inf _ => num 0
  | inf a, num b => if 0 ≤ b then inf a else inf (!a)
  | inf _, inf _ => nan
  | _, _ => nan

/-- pandas `<=` on cells: any comparison involving NaN is `false`. -/
def ble : PVal → PVal → Bool
  | num a, num b => decide (a ≤ b)
  | num _, inf b => b
  | inf a, num _ => !a
  | inf a, inf b => !a || b
  | _, _ => false

/-- pandas `<` on cells: any comparison involving NaN is `false`. -/
def blt : PVal → PVal → Bool
  | num a, num b => decide (a < b)
  | num _, inf b => b
  | inf a, num _ => !a
  | inf a, inf b => !a && b
  | _, _ => false

/-- pandas `>=` on cells. -/
def bge (v w : PVal) : Bool := ble w v

/-- Is the cell NaN (pandas null)? -/
def isNan : PVal → Bool
  | nan => true
  | _ => false

end PVal

/-- Round a rational to the nearest integer, ties to even — the rounding
mode of numpy's `rint`, which underlies `Series.round`. -/
def roundHalfEven (x : ℚ) : ℤ :=
  let f := ⌊x⌋
  let r := x - (f : ℚ)
  if r < 1/2 then f
  else if 1/2 < r then f + 1
  else if f % 2 = 0 then f else f + 1

/-- `Series.round(2)`: scale by 100, round half-to-even, scale back. -/
def round2Q (x : ℚ) : ℚ := (roundHalfEven (x * 100) : ℚ) / 100

/-- `.round(2)` lifted to cells: ±∞ and NaN pass through. -/
def PVal.round2 : PVal → PVal
  | num q => num (round2Q q)
  | v => v

/-- pandas `Series.sum()`: NaN entries are skipped (an empty or all-NaN
series sums to 0); ±∞ entries propagate through IEEE addition. -/
def pandasSum (l : List PVal) : PVal :=
  l.foldl (fun acc v => match v with | .nan => acc | _ => acc.add v) (.num 0)

/-- pandas `Series.mean()`: mean of the non-NaN entries, NaN when there
are none. -/
def pandasMean (l : List PVal) : PVal :=
  let vs := l.filter (fun v => !v.isNan)
  if vs.length = 0 then .nan
  else (pandasSum vs).div (.num (vs.length : ℚ))

/-- One row of `dashboard_data.csv` as loaded by `pd.read_csv`, restricted
to the columns the core pipeline reads. A numeric cell left blank in the
CSV loads as NaN. -/
structure Row where
  stock : String
  status : String
  entry_price : PVal
  current_price : PVal
  quantity : PVal
  stop_loss : PVal
  target_price : PVal
  confidence : PVal
deriving DecidableEq, Repr

/-- A row of the DataFrame returned by `load_data`: the input columns with
`current_price` reconciled, plus the derived `pnl_rs` and `pnl_pct`. -/
structure DRow where
  stock : String
  status : String
  entry_price : PVal
  current_price : PVal
  quantity : PVal
  stop_loss : PVal
  target_price : PVal
  confidence : PVal
  pnl_rs : PVal
  pnl_pct : PVal
deriving DecidableEq, Repr

/-- Outcome of one `yf.Ticker(symbol).history(period='1d')` call: a close
price, an empty series, or a raised exception. -/
inductive FetchOutcome where
  | ok (price : ℚ)
  | emptySeries
  | err
deriving DecidableEq, Repr

/-- The body of one iteration of the loop in `fetch_live_prices`
(lines 30–38): success stores the last close, an empty series stores
`None`, and the bare `except` converts any exception into `None`. -/
def fetchOne (world : String → FetchOutcome) (s : String) : Option ℚ :=
  match world s with
  | .ok p => some p
  | .emptySeries => none
  | .err => none

/-- `fetch_live_prices(symbols)` (lines 22–42): the `prices` dict, built
one symbol at a time; every listed symbol gets an entry (price or `None`),
and no failure escapes the per-symbol `try`. -/
def fetch_live_prices (world : String → FetchOutcome) (symbols : List String) :
    List (String × Option ℚ) :=
  symbols.map (fun s => (s, fetchOne world s))

/-- `df['stock'].map(live_prices)` at one key: a missing key or a stored
`None` both produce NaN, i.e. `none` here. -/
def lookupPrice : List (String × Option ℚ) → String → Option ℚ
  | [], _ => none
  | (k, v) :: rest, s =>
      if s = k then (match v with | some p => some p | none => none)
      else lookupPrice rest s

/-- `df['stock'].unique().tolist()` (line 53): distinct symbols in
first-seen order. -/
def uniqueFirst (l : List String) : List String :=
  l.foldl (fun acc s => if s ∈ acc then acc else acc ++ [s]) []

/-- Lines 57–58: `current_price_live = stock.map(live_prices)` then
`current_price = current_price_live.fillna(current_price)` — a fresh
quote wins, otherwise the CSV's previously known value (possibly NaN)
is kept. -/
def resolveQuote (live : List (String × Option ℚ)) (r : Row) : PVal :=
  match lookupPrice live r.stock with
  | some p => .num p
  | none => r.current_price

/-- Lines 57–62 for one row: reconcile `current_price`, then
`pnl_rs = (current_price − entry_price) * quantity` and
`pnl_pct = ((current_price − entry_price) / entry_price * 100).round(2)`. -/
def deriveRow (live : List (String × Option ℚ)) (r : Row) : DRow :=
  let cp := resolveQuote live r
  { stock := r.stock, status := r.status, entry_price := r.entry_price,
    current_price := cp, quantity := r.quantity, stop_loss := r.stop_loss,
    target_price := r.target_price, confidence := r.confidence,
    pnl_rs := (cp.sub r.entry_price).mul r.quantity,
    pnl_pct := (((cp.sub r.entry_price).div r.entry_price).mul (.num 100)).round2 }

/-- `load_data()` (lines 48–67). The CSV parse outcome is the `Except`
argument (`error` covers a missing file and a structurally invalid one —
whatever makes the `try` body raise). On success: fetch live prices for
the distinct symbols, reconcile and derive each row, no diagnostic. On
failure: `st.error(...)` plus an empty DataFrame. Returns (records,
diagnostics). -/
def load_data (csv : Except String (List Row)) (world : String → FetchOutcome) :
    List DRow × List String :=
  match csv with
  | .ok rows =>
      let live := fetch_live_prices world (uniqueFirst (rows.map (fun r => r.stock)))
      (rows.map (deriveRow live), [])
  | .error e => ([], ["Error loading data: " ++ e])

/-- Line 91: `len(df[df['status'] == 'HOLD'])`. -/
def open_trades (df : List DRow) : ℕ :=
  (df.filter (fun r => r.status = "HOLD")).length

/-- Line 95: `df['pnl_rs'].sum()`. -/
def total_pnl (df : List DRow) : PVal :=
  pandasSum (df.map (fun r => r.pnl_rs))

/-- The denominator series of line 100: `(df['entry_price'] * df['quantity']).sum()`
— signed quantity, no absolute value. -/
def costBasisSum (df : List DRow) : PVal :=
  pandasSum (df.map (fun r => r.entry_price.mul r.quantity))

/-- Line 100: `pnl_rs.sum() / (entry_price*quantity).sum() * 100` when the
denominator sum is `> 0`, else `0`. -/
def total_pnl_pct (df : List DRow) : PVal :=
  if PVal.blt (.num 0) (costBasisSum df) then
    ((total_pnl df).div (costBasisSum df)).mul (.num 100)
  else .num 0

/-- Line 104: `df['confidence'].mean()`. -/
def avg_conf (df : List DRow) : PVal :=
  pandasMean (df.map (fun r => r.confidence))

/-- Lines 200–203: rows with `current_price <= stop_loss * 1.02` and
`status == 'HOLD'`. -/
def near_sl (df : List DRow) : List DRow :=
  df.filter (fun r =>
    r.current_price.ble (r.stop_loss.mul (.num (51/50))) && r.status = "HOLD")

/-- Lines 213–216: rows with `current_price >= target_price * 0.98` and
`status == 'HOLD'`. -/
def at_target (df : List DRow) : List DRow :=
  df.filter (fun r =>
    r.current_price.bge (r.target_price.mul (.num (49/50))) && r.status = "HOLD")

/-- Line 224: `(df['pnl_rs'] < 0).sum()` — a NaN `pnl_rs` compares `false`
and is not counted. -/
def total_risk (df : List DRow) : ℕ :=
  (df.filter (fun r => r.pnl_rs.blt (.num 0))).length

/-- The aggregate formula exactly as the spec words it (§3
PortfolioSummary), stated over `(pnlAbs, entryPrice, quantity)` triples:
sum of `pnlAbs` ÷ sum of cost basis `entryPrice × |quantity|`, × 100; zero
when the cost basis sums to zero. Kept separate from `total_pnl_pct`
(which embeds line 100 of the source) so the two can be compared. -/
def totalReturnPct_spec (rs : List (ℚ × ℚ × ℚ)) : ℚ :=
  let denom := (rs.map (fun x => x.2.1 * |x.2.2|)).sum
  if denom = 0 then 0 else (rs.map (fun x => x.1)).sum / denom * 100

/-- Modelled from the spec: the TTL memoization that
`@st.cache_data(ttl=REFRESH_SECONDS)` (lines 21 and 47) wraps around
`fetch_live_prices` is streamlit library code, absent from this
repository. Per §4.3 the cache is a single slot `(key, value, fetchedAt)`. -/
structure CacheState where
  slot : Option (List String × List (String × Option ℚ) × ℕ)
deriving DecidableEq, Repr

/-- Result of one cached call: the returned mapping, the cache state
afterwards, and how many underlying fetches the call triggered. -/
structure CacheResult where
  value : List (String × Option ℚ)
  state : CacheState
  fetches : ℕ
deriving DecidableEq, Repr

/-- Modelled from the spec (§4.3): `getOrFetch(symbolSet, ttl)` — a call
within `ttl` of the stored `fetchedAt` with the same key returns the
stored mapping without fetching; a changed key or an expired slot
triggers a fresh underlying fetch and overwrites the slot. -/
def getOrFetch (fetchAll : List String → List (String × Option ℚ))
    (ttl now : ℕ) (key : List String) (c : CacheState) : CacheResult :=
  match c.slot with
  | some (k, v, t) =>
      if k = key ∧ now < t + ttl then ⟨v, c, 0⟩
      else ⟨fetchAll key, ⟨some (key, fetchAll key, now)⟩, 1⟩
  | none => ⟨fetchAll key, ⟨some (key, fetchAll key, now)⟩, 1⟩

/-! Concrete fixtures used by the witness and counterexample theorems. -/

/-- A quote source on which every fetch raises. -/
def worldErr : String → FetchOutcome := fun _ => .err

/-- A quote source returning 4 for symbol `A` and raising otherwise. -/
def worldA4 : String → FetchOutcome := fun s => if s = "A" then .ok 4 else .err

/-- A quote source returning 110 for symbol `C` and raising otherwise. -/
def worldC110 : String → FetchOutcome := fun s => if s = "C" then .ok 110 else .err

/-- A quote source agreeing with `worldA4` on symbol `A` but failing
differently elsewhere. -/
def worldA4b : String → FetchOutcome :=
  fun s => if s = "A" then .ok 4 else .emptySeries

/-- A CSV row whose `current_price` cell is blank (NaN). -/
def rowNoCp : Row :=
  ⟨"A", "HOLD", .num 10, .nan, .num 1, .num 9, .num 12, .num 1⟩

/-- A CSV row with `entry_price = 3` (so the exact percentage P&L against
a live price of 4 is 100/3, which does not survive `.round(2)`). -/
def rowEp3 : Row :=
  ⟨"A", "HOLD", .num 3, .nan, .num 1, .num 9, .num 12, .num 1⟩

/-- A CSV row with `entry_price = 0` and a known `current_price`. -/
def rowEp0 : Row :=
  ⟨"B", "HOLD", .num 0, .num 10, .num 5, .num 9, .num 12, .num 1⟩

/-- A short position: `quantity = -2`, `entry_price = 100`. -/
def rowShort : Row :=
  ⟨"C", "HOLD", .num 100, .nan, .num (-2), .num 90, .num 120, .num 1⟩

/-- A HOLD record at 101.5 against a stop loss of 100 (§8 scenario). -/
def dNear : DRow :=
  ⟨"N", "HOLD", .num 95, .num (203/2), .num 1, .num 100, .num 120, .num 1,
    .num (13/2), .num 0⟩

/-- A HOLD record at 105 against a stop loss of 100 (§8 scenario). -/
def dFar : DRow :=
  ⟨"F", "HOLD", .num 95, .num 105, .num 1, .num 100, .num 120, .num 1,
    .num 10, .num 0⟩

/-- A derived record whose `current_price` is NaN. -/
def dNan : DRow :=
  ⟨"Z", "HOLD", .num 95, .nan, .num 1, .num 100, .num 120, .num 1,
    .nan, .nan⟩

/-- Two HOLD records with `pnl_rs = +500` and `-200` (§8 scenario). -/
def dUp : DRow :=
  ⟨"U", "HOLD", .num 100, .num 150, .num 10, .num 90, .num 160, .num 80,
    .num 500, .num 50⟩

/-- See `dUp`. -/
def dDown : DRow :=
  ⟨"D", "HOLD", .num 100, .num 80, .num 10, .num 90, .num 160, .num 90,
    .num (-200), .num (-20)⟩

/-! Helper lemmas. -/

/-- `blt` on two numeric cells is the rational strict order. -/
theorem PVal.blt_num (a b : ℚ) : PVal.blt (.num a) (.num b) = decide (a < b) := rfl

/-- `ble` on two numeric cells is the rational order. -/
theorem PVal.ble_num (a b : ℚ) : PVal.ble (.num a) (.num b) = decide (a ≤ b) := rfl

/-- `mul` on two numeric cells is the rational product. -/
theorem PVal.mul_num (a b : ℚ) : PVal.mul (.num a) (.num b) = .num (a * b) := rfl

/-- `sub` on two numeric cells is the rational difference. -/
theorem PVal.sub_num (a b : ℚ) : PVal.sub (.num a) (.num b) = .num (a - b) := rfl

/-- `div` on two numeric cells with a nonzero denominator is the rational
quotient. -/
theorem PVal.div_num (a b : ℚ) (hb : b ≠ 0) :
    PVal.div (.num a) (.num b) = .num (a / b) := by
  simp [PVal.div, hb]

/-- `round2` on a numeric cell. -/
theorem PVal.round2_num (a : ℚ) : PVal.round2 (.num a) = .num (round2Q a) := rfl

/-- Membership in the `foldl` underlying `uniqueFirst`. -/
theorem mem_uniqueFirst_foldl (l acc : List String) (s : String) :
    (s ∈ l.foldl (fun a x => if x ∈ a then a else a ++ [x]) acc) ↔ s ∈ acc ∨ s ∈ l := by
  induction l generalizing acc with
  | nil => simp
  | cons x xs ih =>
    simp only [List.foldl_cons, List.mem_cons]
    by_cases hx : x ∈ acc
    · rw [if_pos hx, ih]
      constructor
      · rintro (h | h)
        · exact Or.inl h
        · exact Or.inr (Or.inr h)
      · rintro (h | h | h)
        · exact Or.inl h
        · exact Or.inl (h ▸ hx)
        · exact Or.inr h
    · rw [if_neg hx, ih]
      simp only [List.mem_append, List.mem_singleton]
      tauto

/-- `uniqueFirst` keeps exactly the members of the input list. -/
theorem mem_uniqueFirst (l : List String) (s : String) :
    s ∈ uniqueFirst l ↔ s ∈ l := by
  rw [uniqueFirst, mem_uniqueFirst_foldl]
  simp

/-- Looking a listed symbol up in the fetched price dict gives exactly the
outcome of that symbol's own fetch. -/
theorem lookupPrice_fetch (w : String → FetchOutcome) (symbols : List String)
    (s : String) (h : s ∈ symbols) :
    lookupPrice (fetch_live_prices w symbols) s = fetchOne w s := by
  induction symbols with
  | nil => cases h
  | cons x xs ih =>
    simp only [fetch_live_prices, List.map_cons, lookupPrice]
    by_cases hs : s = x
    · subst hs
      rw [if_pos rfl]
      cases hw : fetchOne w s <;> simp
    · rw [if_neg hs]
      have hmem : s ∈ xs := by
        rcases List.mem_cons.mp h with h' | h'
        · exact absurd h' hs
        · exact h'
      exact ih hmem

/-- For a row of the loaded CSV, the reconciled `current_price` is the
live quote when the fetch succeeded, else the row's prior value. -/
theorem resolveQuote_eq (rows : List Row) (w : String → FetchOutcome)
    (r : Row) (hr : r ∈ rows) :
    resolveQuote (fetch_live_prices w (uniqueFirst (rows.map (fun x => x.stock)))) r =
      (match fetchOne w r.stock with
        | some p => PVal.num p
        | none => r.current_price) := by
  have hmem : r.stock ∈ uniqueFirst (rows.map (fun x => x.stock)) :=
    (mem_uniqueFirst _ _).mpr (List.mem_map_of_mem _ hr)
  rw [resolveQuote, lookupPrice_fetch w _ _ hmem]

/-- `pandasSum` over all-numeric cells, with an arbitrary numeric
accumulator. -/
theorem pandasSum_foldl_num (l : List ℚ) (a : ℚ) :
    List.foldl (fun acc v => match v with | .nan => acc | _ => acc.add v)
      (PVal.num a) (l.map PVal.num) = .num (a + l.sum) := by
  induction l generalizing a with
  | nil => simp
  | cons x xs ih =>
    rw [List.map_cons, List.foldl_cons]
    exact (ih (a + x)).trans (by rw [List.sum_cons, add_assoc])

/-- pandas `sum` of an all-numeric series is the exact rational sum. -/
theorem pandasSum_num (l : List ℚ) :
    pandasSum (l.map PVal.num) = .num l.sum := by
  simpa using pandasSum_foldl_num l 0

/-- On a successful CSV parse the returned records are the row-wise
derivation over the fetched prices. -/
theorem load_data_ok (rows : List Row) (w : String → FetchOutcome) :
    (load_data (.ok rows) w).1
      = rows.map
          (deriveRow (fetch_live_prices w (uniqueFirst (rows.map (fun x => x.stock))))) := rfl

/-- With a zero entry price, the pnl-percentage pipeline value is never a
finite number, whatever the reconciled current price is. -/
theorem pnl_pct_entry_zero (cp : PVal) (q : ℚ) :
    (((cp.sub (.num 0)).div (.num 0)).mul (.num 100)).round2 ≠ .num q := by
  cases cp with
  | num a =>
      by_cases ha : a - 0 = 0
      · simp [PVal.sub, PVal.div, PVal.mul, PVal.round2, ha]
      · simp only [PVal.sub, PVal.div, if_pos rfl, if_neg ha]
        simp [PVal.mul, PVal.round2]
  | inf b => simp [PVal.sub, PVal.div, PVal.mul, PVal.round2]
  | nan => simp [PVal.sub, PVal.div, PVal.mul, PVal.round2]

/-- Counting loss records over an all-numeric pnl column. -/
theorem total_risk_num (df : List DRow) (ps : List ℚ)
    (hp : df.map (fun d => d.pnl_rs) = ps.map PVal.num) :
    total_risk df = ps.countP (fun p => decide (p < 0)) := by
  induction df generalizing ps with
  | nil =>
      cases ps with
      | nil => rfl
      | cons p ps2 => simp at hp
  | cons d df2 ih =>
      cases ps with
      | nil => simp at hp
      | cons p ps2 =>
          simp only [List.map_cons, List.cons.injEq] at hp
          obtain ⟨h1, h2⟩ := hp
          have hstep : total_risk (d :: df2)
              = (if PVal.blt d.pnl_rs (.num 0) = true then 1 else 0) + total_risk df2 := by
            simp only [total_risk, List.filter_cons]
            by_cases hb : PVal.blt d.pnl_rs (.num 0) = true
            · simp [hb, Nat.add_comm]
            · simp [hb]
          rw [hstep, List.countP_cons, h1, PVal.blt_num, ih ps2 h2]
          by_cases hlt : p < 0
          · simp [hlt, Nat.add_comm]
          · simp [hlt]

/-- Projections of an all-numeric (pnl, entry, quantity) view: the pnl
column and the elementwise entry × quantity column. -/
theorem map_mul_num (df : List DRow) (rs : List (ℚ × ℚ × ℚ))
    (h : df.map (fun d => (d.pnl_rs, d.entry_price, d.quantity))
       = rs.map (fun x => (PVal.num x.1, PVal.num x.2.1, PVal.num x.2.2))) :
    df.map (fun d => d.entry_price.mul d.quantity)
        = rs.map (fun x => PVal.num (x.2.1 * x.2.2)) ∧
    df.map (fun d => d.pnl_rs) = rs.map (fun x => PVal.num x.1) := by
  induction df generalizing rs with
  | nil =>
      cases rs with
      | nil => simp
      | cons x rs2 => simp at h
  | cons d df2 ih =>
      cases rs with
      | nil => simp at h
      | cons x rs2 =>
          simp only [List.map_cons, List.cons.injEq, Prod.mk.injEq] at h
          obtain ⟨⟨hpn, hep, hq⟩, htl⟩ := h
          obtain ⟨ih1, ih2⟩ := ih rs2 htl
          constructor
          · simp only [List.map_cons, ih1, hep, hq, PVal.mul_num]
          · simp only [List.map_cons, ih2, hpn]

/-! Claim theorems. -/

/-- C1, counterexample: with no fresh quote and a blank CSV
`current_price`, reconciliation leaves `current_price` NaN — it does not
fall back to `entry_price` (here 10), so the three-tier chain claimed by
the spec is not total on the code. -/
theorem reconcile_no_entry_fallback_cex :
    (load_data (.ok [rowNoCp]) worldErr).1.map (fun d => d.current_price) = [PVal.nan] ∧
    PVal.nan ≠ PVal.num 10 := by
  constructor
  · simp [load_data, deriveRow, resolveQuote, fetch_live_prices, uniqueFirst,
      lookupPrice, fetchOne, worldErr, rowNoCp]
  · simp

/-- C1 (corrected): the reconciler is two-tier — a fresh quote becomes
`current_price`, otherwise the previously known `current_price` (which may
itself be NaN) is kept; there is no `entry_price` fallback. -/
theorem reconcile_two_tier (rows : List Row) (w : String → FetchOutcome)
    (r : Row) (hr : r ∈ rows) :
    deriveRow (fetch_live_prices w (uniqueFirst (rows.map (fun x => x.stock)))) r
        ∈ (load_data (.ok rows) w).1 ∧
    (deriveRow (fetch_live_prices w (uniqueFirst (rows.map (fun x => x.stock)))) r).current_price
      = (match fetchOne w r.stock with
          | some p => PVal.num p
          | none => r.current_price) := by
  constructor
  · rw [load_data_ok]
    exact List.mem_map_of_mem _ hr
  · show resolveQuote _ r = _
    exact resolveQuote_eq rows w r hr

/-- C1, witness: the amended reconciliation at a concrete record with no
quote and no stored price. -/
theorem reconcile_two_tier_witness :
    (deriveRow (fetch_live_prices worldErr (uniqueFirst ([rowNoCp].map (fun x => x.stock))))
      rowNoCp).current_price = PVal.nan := by
  have h := reconcile_two_tier [rowNoCp] worldErr rowNoCp (List.mem_singleton.mpr rfl)
  rw [h.2]
  rfl

/-- C2, counterexample: a record with `entry_price = 0` and
`current_price = 10` gets `pnl_pct = +∞` (IEEE division by zero), which is
not null (NaN) — the derivation does not null it out. -/
theorem pnl_pct_zero_entry_cex :
    (load_data (.ok [rowEp0]) worldErr).1.map (fun d => d.pnl_pct) = [PVal.inf true] ∧
    PVal.inf true ≠ PVal.nan := by
  constructor
  · simp [load_data, deriveRow, resolveQuote, fetch_live_prices, uniqueFirst,
      lookupPrice, fetchOne, worldErr, rowEp0, PVal.sub, PVal.div, PVal.mul, PVal.round2]
  · simp

/-- C2 (corrected): a record with `entry_price = 0` gets a non-finite
`pnl_pct` (±∞ or NaN, never a finite number and never null by design);
such records stay in the output, and `total_pnl_pct` never divides by
zero because its division is guarded — whenever the signed cost-basis sum
is not strictly positive the result is 0. Records with non-positive
entry price are not excluded from the aggregate sums. -/
theorem pnl_pct_zero_entry_included (rows : List Row) (w : String → FetchOutcome)
    (r : Row) (hr : r ∈ rows) (hep : r.entry_price = .num 0) (q : ℚ)
    (df : List DRow) (hg : PVal.blt (.num 0) (costBasisSum df) = false) :
    deriveRow (fetch_live_prices w (uniqueFirst (rows.map (fun x => x.stock)))) r
        ∈ (load_data (.ok rows) w).1 ∧
    (deriveRow (fetch_live_prices w (uniqueFirst (rows.map (fun x => x.stock)))) r).pnl_pct
        ≠ .num q ∧
    total_pnl_pct df = .num 0 := by
  refine ⟨?_, ?_, ?_⟩
  · rw [load_data_ok]
    exact List.mem_map_of_mem _ hr
  · show ((((resolveQuote _ r).sub r.entry_price).div r.entry_price).mul (.num 100)).round2 ≠ _
    rw [hep]
    exact pnl_pct_entry_zero _ q
  · simp [total_pnl_pct, hg]

/-- C2, witness: the amended behavior at a concrete zero-entry record and
an empty aggregate. -/
theorem pnl_pct_zero_entry_included_witness :
    (deriveRow (fetch_live_prices worldErr (uniqueFirst ([rowEp0].map (fun x => x.stock))))
        rowEp0).pnl_pct ≠ .num 5 ∧
    total_pnl_pct [] = .num 0 := by
  have h := pnl_pct_zero_entry_included [rowEp0] worldErr rowEp0
    (List.mem_singleton.mpr rfl) rfl 5 []
    (by simp [costBasisSum, pandasSum, PVal.blt])
  exact ⟨h.2.1, h.2.2⟩

/-- C3, counterexample: with `entry_price = 3` and a live price of 4, the
stored `pnl_pct` is 33.33 — the exact formula value 100/3 does not survive
the `.round(2)` applied on line 62, so rounding is not confined to the
presentation boundary. -/
theorem pnl_pct_rounded_cex :
    (load_data (.ok [rowEp3]) worldA4).1.map (fun d => d.pnl_pct) = [PVal.num (3333/100)] ∧
    (3333/100 : ℚ) ≠ (4 - 3) / 3 * 100 := by
  constructor
  · simp [load_data, deriveRow, resolveQuote, fetch_live_prices, uniqueFirst,
      lookupPrice, fetchOne, worldA4, rowEp3, PVal.sub, PVal.div, PVal.mul,
      PVal.round2, round2Q, roundHalfEven]
    norm_num [Int.fract]
  · norm_num

/-- C3 (corrected): for a record with positive entry price and all-numeric
cells, the stored `pnl_rs` is exactly `(currentPrice − entryPrice) ×
quantity`, but the stored `pnl_pct` is the 2-decimal rounding (half to
even) of `(currentPrice − entryPrice) / entryPrice × 100`, not the exact
value: rounding is applied to the stored derived column. -/
theorem derived_formulas_with_rounding (rows : List Row) (w : String → FetchOutcome)
    (r : Row) (hr : r ∈ rows) (e c q : ℚ) (he : 0 < e)
    (hep : r.entry_price = .num e) (hq : r.quantity = .num q)
    (hc : resolveQuote (fetch_live_prices w (uniqueFirst (rows.map (fun x => x.stock)))) r
        = .num c) :
    deriveRow (fetch_live_prices w (uniqueFirst (rows.map (fun x => x.stock)))) r
        ∈ (load_data (.ok rows) w).1 ∧
    (deriveRow (fetch_live_prices w (uniqueFirst (rows.map (fun x => x.stock)))) r).pnl_rs
        = .num ((c - e) * q) ∧
    (deriveRow (fetch_live_prices w (uniqueFirst (rows.map (fun x => x.stock)))) r).pnl_pct
        = .num (round2Q ((c - e) / e * 100)) := by
  refine ⟨?_, ?_, ?_⟩
  · rw [load_data_ok]
    exact List.mem_map_of_mem _ hr
  · show ((resolveQuote _ r).sub r.entry_price).mul r.quantity = _
    rw [hc, hep, hq, PVal.sub_num, PVal.mul_num]
  · show ((((resolveQuote _ r).sub r.entry_price).div r.entry_price).mul (.num 100)).round2 = _
    rw [hc, hep, PVal.sub_num, PVal.div_num _ _ (ne_of_gt he), PVal.mul_num, PVal.round2_num]

/-- C3, witness: the amended formulas at `entry = 3`, live price 4,
quantity 1 — the stored percentage is 33.33, not 100/3. -/
theorem derived_formulas_with_rounding_witness :
    (deriveRow (fetch_live_prices worldA4 (uniqueFirst ([rowEp3].map (fun x => x.stock))))
        rowEp3).pnl_rs = .num 1 ∧
    (deriveRow (fetch_live_prices worldA4 (uniqueFirst ([rowEp3].map (fun x => x.stock))))
        rowEp3).pnl_pct = .num (3333/100) := by
  have h := derived_formulas_with_rounding [rowEp3] worldA4 rowEp3
    (List.mem_singleton.mpr rfl) 3 4 1 (by norm_num) rfl rfl
    (by simp [resolveQuote, fetch_live_prices, uniqueFirst, lookupPrice, fetchOne,
      worldA4, rowEp3])
  constructor
  · rw [h.2.1]
    norm_num
  · rw [h.2.2]
    norm_num [round2Q, roundHalfEven, Int.fract]

/-- C4, counterexample: a single short position (quantity −2, entry 100,
live price 110, so `pnl_rs = −20`). The spec formula over cost basis
`entryPrice × |quantity|` gives −10%, but line 100 sums the signed
products, gets −200, fails its `> 0` guard, and returns 0. -/
theorem total_return_signed_qty_cex :
    (load_data (.ok [rowShort]) worldC110).1.map (fun d => d.pnl_rs) = [PVal.num (-20)] ∧
    total_pnl_pct (load_data (.ok [rowShort]) worldC110).1 = .num 0 ∧
    totalReturnPct_spec [((-20 : ℚ), (100 : ℚ), (-2 : ℚ))] = -10 ∧
    PVal.num 0 ≠ PVal.num (-10) := by
  refine ⟨?_, ?_, ?_, ?_⟩
  · simp [load_data, deriveRow, resolveQuote, fetch_live_prices, uniqueFirst,
      lookupPrice, fetchOne, worldC110, rowShort, PVal.sub, PVal.mul]
    norm_num
  · simp [load_data, deriveRow, resolveQuote, fetch_live_prices, uniqueFirst,
      lookupPrice, fetchOne, worldC110, rowShort, total_pnl_pct, costBasisSum,
      pandasSum, PVal.sub, PVal.mul, PVal.add, PVal.blt]
  · norm_num [totalReturnPct_spec]
  · simp

/-- C4 (corrected): over all-numeric records, line 100 computes
`Σ pnl_rs ÷ Σ (entry_price × quantity) × 100` with the signed quantity
(no absolute value), and returns 0 whenever that signed cost-basis sum is
not strictly positive — not only when it is zero. -/
theorem total_return_signed_formula (df : List DRow) (rs : List (ℚ × ℚ × ℚ))
    (h : df.map (fun d => (d.pnl_rs, d.entry_price, d.quantity))
       = rs.map (fun x => (PVal.num x.1, PVal.num x.2.1, PVal.num x.2.2))) :
    total_pnl_pct df =
      if 0 < (rs.map (fun x => x.2.1 * x.2.2)).sum
      then .num ((rs.map (fun x => x.1)).sum / (rs.map (fun x => x.2.1 * x.2.2)).sum * 100)
      else .num 0 := by
  obtain ⟨h1, h2⟩ := map_mul_num df rs h
  have h1c : df.map (fun d => d.entry_price.mul d.quantity)
      = List.map PVal.num (rs.map (fun x => x.2.1 * x.2.2)) := by
    rw [h1, List.map_map]
    rfl
  have h2c : df.map (fun d => d.pnl_rs)
      = List.map PVal.num (rs.map (fun x => x.1)) := by
    rw [h2, List.map_map]
    rfl
  rw [total_pnl_pct, total_pnl, costBasisSum, h1c, h2c, pandasSum_num, pandasSum_num,
    PVal.blt_num]
  by_cases hpos : 0 < (rs.map (fun x => x.2.1 * x.2.2)).sum
  · rw [if_pos hpos, PVal.div_num _ _ (ne_of_gt hpos), PVal.mul_num]
    simp [hpos]
  · rw [if_neg hpos]
    simp [hpos]

/-- C4, witness: the amended aggregate formula on two long positions with
`pnl_rs` +500 and −200 and cost basis 1000 each — 300/2000 × 100 = 15%. -/
theorem total_return_signed_formula_witness :
    total_pnl_pct [dUp, dDown] = .num 15 := by
  have h := total_return_signed_formula [dUp, dDown]
    [(500, 100, 10), (-200, 100, 10)] rfl
  rw [h]
  norm_num

/-- C5 (confirmed): symbols are fetched independently — for a listed
symbol, a raised exception or an empty series degrades to an absent price
for that symbol only, a successful fetch yields its price, and the result
for a symbol depends only on that symbol's own outcome (so one symbol's
failure cannot change another's price); `fetch_live_prices` is a total
function, so no exception propagates past the fetch boundary. -/
theorem fetch_isolation (w w2 : String → FetchOutcome) (symbols : List String)
    (s : String) (hs : s ∈ symbols) :
    ((w s = .err ∨ w s = .emptySeries) →
        lookupPrice (fetch_live_prices w symbols) s = none) ∧
    (∀ p, w s = .ok p → lookupPrice (fetch_live_prices w symbols) s = some p) ∧
    (w s = w2 s →
        lookupPrice (fetch_live_prices w symbols) s
          = lookupPrice (fetch_live_prices w2 symbols) s) := by
  refine ⟨?_, ?_, ?_⟩
  · intro h
    rw [lookupPrice_fetch w symbols s hs]
    rcases h with h | h <;> simp [fetchOne, h]
  · intro p h
    rw [lookupPrice_fetch w symbols s hs]
    simp [fetchOne, h]
  · intro h
    rw [lookupPrice_fetch w symbols s hs, lookupPrice_fetch w2 symbols s hs]
    simp [fetchOne, h]

/-- C5, witness: concrete two-symbol fetches — failure gives an absent
price, success gives the price, and agreement on one symbol gives equal
results for it even though the other symbol's outcomes differ. -/
theorem fetch_isolation_witness :
    lookupPrice (fetch_live_prices worldErr ["A", "B"]) "A" = none ∧
    lookupPrice (fetch_live_prices worldA4 ["A", "B"]) "A" = some 4 ∧
    lookupPrice (fetch_live_prices worldA4 ["A", "B"]) "A"
      = lookupPrice (fetch_live_prices worldA4b ["A", "B"]) "A" := by
  refine ⟨?_, ?_, ?_⟩
  · exact (fetch_isolation worldErr worldErr ["A", "B"] "A" (by simp)).1 (Or.inl rfl)
  · exact (fetch_isolation worldA4 worldA4 ["A", "B"] "A" (by simp)).2.1 4
      (by simp [worldA4])
  · exact (fetch_isolation worldA4 worldA4b ["A", "B"] "A" (by simp)).2.2
      (by simp [worldA4, worldA4b])

/-- C6 (confirmed, spec-modelled): starting from an empty cache, the first
`getOrFetch` triggers exactly one underlying fetch; a second call with the
same key within the TTL window returns the identical mapping with no new
fetch (one fetch total), while a second call at or after expiry triggers a
second fetch (two total). -/
theorem cache_ttl_behavior (fetchAll : List String → List (String × Option ℚ))
    (ttl t0 t1 : ℕ) (key : List String) :
    (getOrFetch fetchAll ttl t0 key ⟨none⟩).fetches = 1 ∧
    (t1 < t0 + ttl →
      (getOrFetch fetchAll ttl t1 key (getOrFetch fetchAll ttl t0 key ⟨none⟩).state).value
          = (getOrFetch fetchAll ttl t0 key ⟨none⟩).value ∧
      (getOrFetch fetchAll ttl t0 key ⟨none⟩).fetches
          + (getOrFetch fetchAll ttl t1 key (getOrFetch fetchAll ttl t0 key ⟨none⟩).state).fetches
          = 1) ∧
    (t0 + ttl ≤ t1 →
      (getOrFetch fetchAll ttl t0 key ⟨none⟩).fetches
          + (getOrFetch fetchAll ttl t1 key (getOrFetch fetchAll ttl t0 key ⟨none⟩).state).fetches
          = 2) := by
  have h0 : getOrFetch fetchAll ttl t0 key ⟨none⟩
      = ⟨fetchAll key, ⟨some (key, fetchAll key, t0)⟩, 1⟩ := rfl
  refine ⟨by rw [h0], ?_, ?_⟩
  · intro ht
    rw [h0]
    have h1 : getOrFetch fetchAll ttl t1 key ⟨some (key, fetchAll key, t0)⟩
        = ⟨fetchAll key, ⟨some (key, fetchAll key, t0)⟩, 0⟩ := by
      simp [getOrFetch, ht]
    rw [h1]
    exact ⟨rfl, rfl⟩
  · intro ht
    rw [h0]
    have h1 : getOrFetch fetchAll ttl t1 key ⟨some (key, fetchAll key, t0)⟩
        = ⟨fetchAll key, ⟨some (key, fetchAll key, t1)⟩, 1⟩ := by
      simp [getOrFetch, Nat.not_lt.mpr ht]
    rw [h1]
    rfl

/-- C6, witness: TTL 30 — calls at times 0 and 10 share one fetch and
return the same mapping; calls at times 0 and 40 fetch twice. -/
theorem cache_ttl_behavior_witness :
    (getOrFetch (fun _ => []) 30 0 ["A"] ⟨none⟩).fetches = 1 ∧
    ((getOrFetch (fun _ => []) 30 10 ["A"]
        (getOrFetch (fun _ => []) 30 0 ["A"] ⟨none⟩).state).value
      = (getOrFetch (fun _ => []) 30 0 ["A"] ⟨none⟩).value ∧
     (getOrFetch (fun _ => []) 30 0 ["A"] ⟨none⟩).fetches
      + (getOrFetch (fun _ => []) 30 10 ["A"]
          (getOrFetch (fun _ => []) 30 0 ["A"] ⟨none⟩).state).fetches = 1) ∧
    (getOrFetch (fun _ => []) 30 0 ["A"] ⟨none⟩).fetches
      + (getOrFetch (fun _ => []) 30 40 ["A"]
          (getOrFetch (fun _ => []) 30 0 ["A"] ⟨none⟩).state).fetches = 2 := by
  refine ⟨(cache_ttl_behavior (fun _ => []) 30 0 10 ["A"]).1, ?_, ?_⟩
  · exact (cache_ttl_behavior (fun _ => []) 30 0 10 ["A"]).2.1 (by decide)
  · exact (cache_ttl_behavior (fun _ => []) 30 0 40 ["A"]).2.2 (by decide)

/-- C7 (confirmed): for a record with numeric current price, stop loss and
target, membership in the near-stop-loss set is exactly
`status == HOLD AND currentPrice <= stopLoss * 1.02`, and membership in
the near-target set is exactly
`status == HOLD AND currentPrice >= targetPrice * 0.98`. -/
theorem risk_band_iff (df : List DRow) (d : DRow) (c s t : ℚ)
    (hc : d.current_price = .num c) (hs : d.stop_loss = .num s)
    (ht : d.target_price = .num t) :
    (d ∈ near_sl df ↔ d ∈ df ∧ d.status = "HOLD" ∧ c ≤ s * (51/50)) ∧
    (d ∈ at_target df ↔ d ∈ df ∧ d.status = "HOLD" ∧ t * (49/50) ≤ c) := by
  constructor
  · rw [near_sl, List.mem_filter]
    simp only [hc, hs, PVal.mul_num, PVal.ble_num, Bool.and_eq_true, decide_eq_true_eq]
    tauto
  · rw [at_target, List.mem_filter]
    simp only [hc, ht, PVal.bge, PVal.mul_num, PVal.ble_num, Bool.and_eq_true,
      decide_eq_true_eq]
    tauto

/-- C7, witness: the §8 scenario — a HOLD record at 101.5 against stop
loss 100 is near-stop-loss (101.5 ≤ 102), one at 105 is not. -/
theorem risk_band_iff_witness :
    dNear ∈ near_sl [dNear, dFar] ∧ dFar ∉ near_sl [dNear, dFar] := by
  have h1 := (risk_band_iff [dNear, dFar] dNear (203/2) 100 120 rfl rfl rfl).1
  have h2 := (risk_band_iff [dNear, dFar] dFar 105 100 120 rfl rfl rfl).1
  constructor
  · exact h1.mpr ⟨by simp, rfl, by norm_num⟩
  · intro hmem
    have := (h2.mp hmem).2.2
    norm_num at this

/-- C8 (confirmed): when the input source is missing or structurally
invalid (the CSV parse raises), `load_data` returns an empty record set
plus one diagnostic and the cycle proceeds: every aggregate of the empty
record set is the zeroed value and both alert sets are empty, so the
consumer receives a structurally valid output. -/
theorem load_error_empty_output (e : String) (w : String → FetchOutcome) :
    (load_data (.error e) w).1 = [] ∧
    (load_data (.error e) w).2 = ["Error loading data: " ++ e] ∧
    open_trades [] = 0 ∧
    total_pnl [] = .num 0 ∧
    total_pnl_pct [] = .num 0 ∧
    total_risk [] = 0 ∧
    near_sl [] = [] ∧
    at_target [] = [] := by
  refine ⟨rfl, rfl, rfl, rfl, ?_, rfl, rfl, rfl⟩
  simp [total_pnl_pct, costBasisSum, pandasSum, PVal.blt]

/-- C9 (confirmed): over the output record set, the open-position count is
the number of HOLD records, the total P&L is the exact sum of an
all-numeric pnl column, the average confidence is the mean of the non-NaN
confidence cells, and the loss count is the number of records with
negative pnl. -/
theorem portfolio_summary_formulas (df : List DRow) (ps cs : List ℚ)
    (hp : df.map (fun d => d.pnl_rs) = ps.map PVal.num)
    (hc : (df.map (fun d => d.confidence)).filter (fun v => !v.isNan) = cs.map PVal.num)
    (hcs : cs ≠ []) :
    open_trades df = df.countP (fun d => decide (d.status = "HOLD")) ∧
    total_pnl df = .num ps.sum ∧
    avg_conf df = .num (cs.sum / cs.length) ∧
    total_risk df = ps.countP (fun p => decide (p < 0)) := by
  refine ⟨?_, ?_, ?_, ?_⟩
  · rw [open_trades, List.countP_eq_length_filter]
  · rw [total_pnl, hp, pandasSum_num]
  · rw [avg_conf, pandasMean]
    simp only [hc, List.length_map]
    rw [if_neg (fun h0 => hcs (List.length_eq_zero.mp h0)), pandasSum_num,
      PVal.div_num _ _ (Nat.cast_ne_zero.mpr (fun h0 => hcs (List.length_eq_zero.mp h0)))]
  · exact total_risk_num df ps hp

/-- C9, witness: two HOLD records with pnl +500 and −200 and confidences
80 and 90 — two open positions, total P&L 300, average confidence 85, one
position in loss. -/
theorem portfolio_summary_formulas_witness :
    open_trades [dUp, dDown] = 2 ∧
    total_pnl [dUp, dDown] = .num 300 ∧
    avg_conf [dUp, dDown] = .num 85 ∧
    total_risk [dUp, dDown] = 1 := by
  have h := portfolio_summary_formulas [dUp, dDown] [500, -200] [80, 90] rfl rfl
    (by simp)
  refine ⟨?_, ?_, ?_, ?_⟩
  · rw [h.1]
    rfl
  · rw [h.2.1]
    norm_num
  · rw [h.2.2.1]
    norm_num
  · rw [h.2.2.2]
    simp only [List.countP_cons, List.countP_nil]
    norm_num

/-- C10 (confirmed): a record whose reconciled `current_price` is still
NaN (no fresh quote, no stored price) is classified as neither
near-stop-loss nor near-target, and no error is raised: every pandas
comparison against NaN evaluates to false. -/
theorem nan_price_not_classified (df : List DRow) (d : DRow)
    (h : d.current_price = .nan) :
    d ∉ near_sl df ∧ d ∉ at_target df ∧
    (∀ v : PVal, PVal.ble PVal.nan v = false ∧ PVal.ble v PVal.nan = false) := by
  have hble : ∀ v, PVal.ble PVal.nan v = false := by
    intro v
    cases v <;> rfl
  have hble2 : ∀ v, PVal.ble v PVal.nan = false := by
    intro v
    cases v <;> rfl
  refine ⟨?_, ?_, fun v => ⟨hble v, hble2 v⟩⟩
  · intro hmem
    have hpred := (List.mem_filter.mp hmem).2
    rw [h] at hpred
    simp [hble] at hpred
  · intro hmem
    have hpred := (List.mem_filter.mp hmem).2
    rw [h] at hpred
    simp [PVal.bge, hble2] at hpred

/-- C10, witness: a concrete NaN-priced HOLD record is in neither alert
set. -/
theorem nan_price_not_classified_witness :
    dNan ∉ near_sl [dNan] ∧ dNan ∉ at_target [dNan] := by
  have h := nan_price_not_classified [dNan] dNan rfl
  exact ⟨h.1, h.2.1⟩
